import Mathlib

/-!
Verification of the Velie review-pipeline specification against the
RYKNSH records sources: the Sprint 2 Supabase migration (tenants and
reviews tables with row-level security), the Next.js dashboard data
layer, middleware, settings and autofix API routes, and the parts of
the backend that the sources only describe (webhook verifier, review
status transitions, reactions endpoint), which are modelled from the
specification text.
-/

set_option linter.unusedVariables false

namespace Velie

/-! ## Store rows and row-level security (Sprint 2 migration) -/

/-- Status values allowed by the CHECK constraint on reviews.status:
CHECK (status IN (pending, completed, failed)). -/
def statusAllowed : List String := ["pending", "completed", "failed"]

/-- One row of the reviews table (columns of the Sprint 2 migration that
carry review state; timestamps and free-text title and author columns are
omitted as they play no role in any claim). -/
structure ReviewRow where
  id : Nat
  tenant_id : Nat
  repo_full_name : String
  pr_number : Nat
  thread_id : String
  status : String
  error_message : Option String
deriving DecidableEq, Repr

/-- The CHECK constraint of the reviews table, applied to one row. -/
def rowCheckOk (r : ReviewRow) : Bool := statusAllowed.contains r.status

/-- The USING and WITH CHECK expression shared by the three RLS policies:
tenant_id = current_setting(app.tenant_id, TRUE)::UUID.  The caller
context is the nullable current_setting value; comparison with a NULL
setting is not true, so it denies. -/
def policyHolds (ctx : Option Nat) (r : ReviewRow) : Bool :=
  match ctx with
  | some t => r.tenant_id == t
  | none => false

/-- SELECT under policy tenant_isolation_select: only rows passing the
USING expression are returned. -/
def rlsSelect (ctx : Option Nat) (db : List ReviewRow) : List ReviewRow :=
  db.filter (policyHolds ctx)

/-- INSERT under policy tenant_isolation_insert: the WITH CHECK
expression must hold for the new row, otherwise the statement errors. -/
def rlsInsert (ctx : Option Nat) (r : ReviewRow) (db : List ReviewRow) :
    Option (List ReviewRow) :=
  if policyHolds ctx r then some (db ++ [r]) else none

/-- UPDATE under policy tenant_isolation_update: only rows passing USING
are updated, and (a policy with USING and no WITH CHECK applies USING to
the new rows as well) the statement errors if an updated row leaves the
callers tenant. -/
def rlsUpdate (ctx : Option Nat) (f : ReviewRow → ReviewRow)
    (db : List ReviewRow) : Option (List ReviewRow) :=
  if db.all (fun r => !policyHolds ctx r || policyHolds ctx (f r)) then
    some (db.map (fun r => if policyHolds ctx r then f r else r))
  else none

/-- DELETE: row level security is enabled on reviews and no DELETE policy
exists, so the default-deny rule removes nothing. -/
def rlsDelete (ctx : Option Nat) (p : ReviewRow → Bool)
    (db : List ReviewRow) : List ReviewRow :=
  db.filter (fun r => !(false && p r))

/-! ## Review status state machine -/

/-- The thread_id format documented in the migration:
tenant:repo:pr. -/
def threadId (tenant : Nat) (repo : String) (pr : Nat) : String :=
  toString tenant ++ ":" ++ repo ++ ":" ++ toString pr

/-- A freshly created Review row: status defaults to pending. -/
def newReviewRow (i tenant : Nat) (repo : String) (pr : Nat) : ReviewRow :=
  ⟨i, tenant, repo, pr, threadId tenant repo pr, "pending", none⟩

/-- Success-path transition applied row-wise: a pending row with the
given id becomes completed; every other row is untouched.
Modelled from the spec: the backend service that moves a Review from
pending to completed is not among the sources; the spec states
pending to completed on the success path, terminal afterwards. -/
def completeRow (i : Nat) (r : ReviewRow) : ReviewRow :=
  if r.id == i && r.status == "pending" then
    ⟨r.id, r.tenant_id, r.repo_full_name, r.pr_number, r.thread_id,
      "completed", none⟩
  else r

/-- Error-path transition applied row-wise: a pending row with the given
id becomes failed and records the error message; every other row is
untouched.  Modelled from the spec: the backend service that moves a
Review from pending to failed is not among the sources; the spec states
pending to failed on the error path, terminal afterwards, with the
causal error preserved. -/
def failRow (i : Nat) (msg : String) (r : ReviewRow) : ReviewRow :=
  if r.id == i && r.status == "pending" then
    ⟨r.id, r.tenant_id, r.repo_full_name, r.pr_number, r.thread_id,
      "failed", some msg⟩
  else r

/-- Operations of the store on review rows.  Modelled from the spec: a
new webhook event for the same PR creates a new Review row rather than
reopening a terminal one; completion and failure are the only status
transitions. -/
inductive StoreOp where
  | webhookEvent (i tenant : Nat) (repo : String) (pr : Nat)
  | complete (i : Nat)
  | markFailed (i : Nat) (msg : String)
deriving DecidableEq, Repr

/-- One store operation applied to the table. -/
def stepOp (db : List ReviewRow) : StoreOp → List ReviewRow
  | .webhookEvent i t repo pr => db ++ [newReviewRow i t repo pr]
  | .complete i => db.map (completeRow i)
  | .markFailed i msg => db.map (failRow i msg)

/-- A sequence of store operations applied to the table. -/
def runOps (db : List ReviewRow) (ops : List StoreOp) : List ReviewRow :=
  ops.foldl stepOp db

/-! ## Dashboard data layer (dashboard/src/lib/data.ts) -/

/-- The severity union of the dashboard Review interface:
critical | warning | clean. -/
inductive Severity where
  | critical
  | warning
  | clean
deriving DecidableEq, Repr

/-- The Review interface of the dashboard data layer. -/
structure DashReview where
  id : String
  pr_number : Nat
  repo_full_name : String
  pr_title : String
  pr_author : String
  severity : Severity
  review_body : String
  installation_id : Option Nat
  created_at : String
deriving DecidableEq, Repr

/-- The column list of the reviews table created by the Sprint 2
migration, in declaration order. -/
def reviewsTableColumns : List String :=
  ["id", "tenant_id", "repo_full_name", "pr_number", "thread_id",
   "pr_title", "pr_author", "review_body", "status", "error_message",
   "created_at", "completed_at"]

/-- The query string parameters of the Supabase request issued by
GET /api/reviews: order=created_at.desc and limit=100, nothing else. -/
def reviewsQueryParams : List (String × String) :=
  [("order", "created_at.desc"), ("limit", "100")]

/-- GET /api/reviews: the local JSON file wins when present (parse
failure yields the empty list), otherwise the configured Supabase
response is passed through unchanged, otherwise the empty list. -/
def apiReviewsGET (localFile : Option (Option (List DashReview)))
    (supabaseRows : Option (List DashReview)) : List DashReview :=
  match localFile with
  | some (some data) => data
  | some none => []
  | none =>
    match supabaseRows with
    | some rows => rows
    | none => []

/-- getReviews: fetch and slice(0, limit). -/
def getReviews (limit : Nat) (fetched : List DashReview) : List DashReview :=
  fetched.take limit

/-- The single-review lookup of the review detail page:
reviews.find of a matching id. -/
def findReview (i : String) (fetched : List DashReview) : Option DashReview :=
  fetched.find? (fun r => r.id == i)

/-- The DashboardStats shape of the data layer. -/
structure DashboardStats where
  totalReviews : Nat
  criticalIssues : Nat
  repos : Nat
  apiCalls : Nat
deriving DecidableEq, Repr

/-- getDashboardStats over the fetched reviews: length, critical filter
count, distinct repo count via a Set, and twice the review count. -/
def getDashboardStats (reviews : List DashReview) : DashboardStats :=
  { totalReviews := reviews.length
    criticalIssues :=
      (reviews.filter (fun r => r.severity == Severity.critical)).length
    repos := (reviews.map (fun r => r.repo_full_name)).dedup.length
    apiCalls := reviews.length * 2 }

/-! ## Settings route (dashboard/src/app/api/settings/route.ts) -/

/-- JSON values occurring in the settings objects and request bodies. -/
inductive JVal where
  | s (v : String)
  | b (v : Bool)
  | n (v : Nat)
  | null
deriving DecidableEq, Repr

/-- A JSON object as an association list; lookup takes the first
binding of a key, so earlier entries win. -/
abbrev JObj := List (String × JVal)

/-- The default configuration returned by loadSettings when no settings
file exists. -/
def defaultSettings : JObj :=
  [("llm_model", JVal.s "claude-sonnet-4-20250514"),
   ("review_language", JVal.s "English"),
   ("max_diff_size", JVal.s "60,000 chars"),
   ("email_on_critical", JVal.b true),
   ("slack_integration", JVal.b false)]

/-- loadSettings: the parsed settings file when it exists, the default
configuration otherwise. -/
def loadSettings (file : Option JObj) : JObj :=
  match file with
  | none => defaultSettings
  | some stored => stored

/-- The JS object spread of current and body: for every key, the body
binding wins when present, the current binding otherwise.  The body
entries are placed first because lookup takes the first binding. -/
def mergeObj (current body : JObj) : JObj :=
  body ++ current.filter (fun kv => (body.lookup kv.1).isNone)

/-- The observable outcome of POST /api/settings: the object written to
disk, the success flag and the settings object of the JSON response. -/
structure SettingsPostResult where
  persisted : JObj
  success : Bool
  settings : JObj
deriving DecidableEq, Repr

/-- POST /api/settings: load current settings, spread the body over
them, save the merged object and return it. -/
def settingsPOST (file : Option JObj) (body : JObj) : SettingsPostResult :=
  let updated := mergeObj (loadSettings file) body
  ⟨updated, true, updated⟩

/-! ## Autofix route (dashboard/src/app/api/autofix/route.ts) -/

/-- JS truthiness of a field read from a parsed JSON body: absent
fields, null, false, zero and the empty string are falsy. -/
def jsTruthy (v : Option JVal) : Bool :=
  match v with
  | none => false
  | some (JVal.s x) => !(x == "")
  | some (JVal.b x) => x
  | some (JVal.n x) => !(x == 0)
  | some JVal.null => false

/-- Outcome of the fetch against the Velie backend autofix endpoint. -/
inductive BackendOutcome where
  | ok (fix_pr_url : Option String) (message : Option String)
  | httpError (status : Nat) (detail : Option String)
  | unreachable
deriving DecidableEq, Repr

/-- The observable outcome of POST /api/autofix: HTTP status, JSON
response body, and whether the backend was called at all. -/
structure AutofixResult where
  status : Nat
  body : JObj
  calledBackend : Bool
deriving DecidableEq, Repr

/-- The JS expression value-or-null: an absent or empty string becomes
null. -/
def jsOrNullS (v : Option String) : JVal :=
  match v with
  | some u => if u == "" then JVal.null else JVal.s u
  | none => JVal.null

/-- The JS expression value-or-default over an optional string. -/
def jsOrDefaultS (v : Option String) (d : String) : String :=
  match v with
  | some u => if u == "" then d else u
  | none => d

/-- POST /api/autofix: destructure reviewId, repo and prNumber from the
body; a missing (falsy) field yields HTTP 400 before any backend call;
otherwise the backend is called once and its success, HTTP error or
unreachability is mapped to the response. -/
def autofixPOST (body : JObj) (backend : BackendOutcome) : AutofixResult :=
  if jsTruthy (body.lookup "reviewId") && jsTruthy (body.lookup "repo")
      && jsTruthy (body.lookup "prNumber") then
    match backend with
    | .ok url msg =>
        ⟨200, [("success", JVal.b true), ("fix_pr_url", jsOrNullS url),
               ("message", JVal.s (jsOrDefaultS msg "修正PRを作成しました"))],
          true⟩
    | .httpError st detail =>
        ⟨st, [("error", JVal.s (jsOrDefaultS detail "Failed to create fix PR")),
              ("status", JVal.s "error")], true⟩
    | .unreachable =>
        ⟨503, [("error", JVal.s "Velie server is not reachable"),
               ("status", JVal.s "error")], true⟩
  else
    ⟨400,
      [("error", JVal.s "Missing required fields: reviewId, repo, prNumber")],
      false⟩

/-! ## Webhook signature verification

Modelled from the spec: the FastAPI webhook handler is not among the
sources (only its E2E test script is); the spec states that the
verifier computes HMAC-SHA256 over the raw body bytes with the shared
secret, expects a header of the form sha256=hex, compares with a
constant-time comparison, and rejects a missing or malformed header
without raising. -/

/-- Truncation to a 32-bit word. -/
def w32 (x : Nat) : Nat := x % 4294967296

/-- 32-bit right rotation. -/
def rotr32 (n x : Nat) : Nat := w32 ((x >>> n) ||| (x <<< (32 - n)))

/-- 32-bit complement. -/
def compl32 (x : Nat) : Nat := x ^^^ 4294967295

/-- SHA-256 Sigma0. -/
def bigSigma0 (x : Nat) : Nat := rotr32 2 x ^^^ rotr32 13 x ^^^ rotr32 22 x

/-- SHA-256 Sigma1. -/
def bigSigma1 (x : Nat) : Nat := rotr32 6 x ^^^ rotr32 11 x ^^^ rotr32 25 x

/-- SHA-256 sigma0. -/
def smallSigma0 (x : Nat) : Nat := rotr32 7 x ^^^ rotr32 18 x ^^^ (x >>> 3)

/-- SHA-256 sigma1. -/
def smallSigma1 (x : Nat) : Nat := rotr32 17 x ^^^ rotr32 19 x ^^^ (x >>> 10)

/-- SHA-256 choice function. -/
def sha2Ch (x y z : Nat) : Nat := (x &&& y) ^^^ (compl32 x &&& z)

/-- SHA-256 majority function. -/
def sha2Maj (x y z : Nat) : Nat := (x &&& y) ^^^ (x &&& z) ^^^ (y &&& z)

/-- The 64 SHA-256 round constants, written in decimal. -/
def sha2K : List Nat :=
  [1116352408, 1899447441, 3049323471, 3921009573,
   961987163, 1508970993, 2453635748, 2870763221,
   3624381080, 310598401, 607225278, 1426881987,
   1925078388, 2162078206, 2614888103, 3248222580,
   3835390401, 4022224774, 264347078, 604807628,
   770255983, 1249150122, 1555081692, 1996064986,
   2554220882, 2821834349, 2952996808, 3210313671,
   3336571891, 3584528711, 113926993, 338241895,
   666307205, 773529912, 1294757372, 1396182291,
   1695183700, 1986661051, 2177026350, 2456956037,
   2730485921, 2820302411, 3259730800, 3345764771,
   3516065817, 3600352804, 4094571909, 275423344,
   430227734, 506948616, 659060556, 883997877,
   958139571, 1322822218, 1537002063, 1747873779,
   1955562222, 2024104815, 2227730452, 2361852424,
   2428436474, 2756734187, 3204031479, 3329325298]

/-- The SHA-256 initial hash value, written in decimal. -/
def sha2H0 : List Nat :=
  [1779033703, 3144134277, 1013904242, 2773480762,
   1359893119, 2600822924, 528734635, 1541459225]

/-- Big-endian grouping of bytes into 32-bit words. -/
def toWords : List Nat → List Nat
  | b0 :: b1 :: b2 :: b3 :: rest =>
      (((b0 * 256 + b1) * 256 + b2) * 256 + b3) :: toWords rest
  | _ => []

/-- Word access with zero default. -/
def wAt (w : List Nat) (i : Nat) : Nat := w.getD i 0

/-- Extension of the 16-word message schedule by the given number of
further words. -/
def extendSchedule : Nat → List Nat → List Nat
  | 0, w => w
  | n + 1, w =>
      let i := w.length
      extendSchedule n (w ++ [w32 (wAt w (i - 16) + smallSigma0 (wAt w (i - 15))
        + wAt w (i - 7) + smallSigma1 (wAt w (i - 2)))])

/-- The eight SHA-256 working variables. -/
structure Hash8 where
  a : Nat
  b : Nat
  c : Nat
  d : Nat
  e : Nat
  f : Nat
  g : Nat
  h : Nat

/-- One SHA-256 round over a pair of round constant and schedule
word. -/
def roundStep (st : Hash8) (kw : Nat × Nat) : Hash8 :=
  let t1 := w32 (st.h + bigSigma1 st.e + sha2Ch st.e st.f st.g + kw.1 + kw.2)
  let t2 := w32 (bigSigma0 st.a + sha2Maj st.a st.b st.c)
  ⟨w32 (t1 + t2), st.a, st.b, st.c, w32 (st.d + t1), st.e, st.f, st.g⟩

/-- SHA-256 compression of one 64-byte block into the hash state. -/
def processBlock (hs : List Nat) (block : List Nat) : List Nat :=
  let ws := extendSchedule 48 (toWords block)
  let init : Hash8 := ⟨wAt hs 0, wAt hs 1, wAt hs 2, wAt hs 3,
    wAt hs 4, wAt hs 5, wAt hs 6, wAt hs 7⟩
  let fin := (List.zip sha2K ws).foldl roundStep init
  [w32 (wAt hs 0 + fin.a), w32 (wAt hs 1 + fin.b), w32 (wAt hs 2 + fin.c),
   w32 (wAt hs 3 + fin.d), w32 (wAt hs 4 + fin.e), w32 (wAt hs 5 + fin.f),
   w32 (wAt hs 6 + fin.g), w32 (wAt hs 7 + fin.h)]

/-- The 8-byte big-endian encoding of the message bit length. -/
def lenBytes64 (n : Nat) : List Nat :=
  [(n >>> 56) % 256, (n >>> 48) % 256, (n >>> 40) % 256, (n >>> 32) % 256,
   (n >>> 24) % 256, (n >>> 16) % 256, (n >>> 8) % 256, n % 256]

/-- SHA-256 padding: a 0x80 byte, zeros up to 56 mod 64, and the bit
length. -/
def sha256Pad (msg : List Nat) : List Nat :=
  msg ++ [128] ++ List.replicate ((119 - (msg.length % 64)) % 64) 0
    ++ lenBytes64 (msg.length * 8)

/-- Iterated block compression over the padded message. -/
def sha256Blocks : Nat → List Nat → List Nat → List Nat
  | 0, hs, _ => hs
  | n + 1, hs, bytes => sha256Blocks n (processBlock hs (bytes.take 64)) (bytes.drop 64)

/-- Big-endian serialization of the hash words. -/
def wordsToBytes (ws : List Nat) : List Nat :=
  ws.foldr (fun w acc =>
    (w >>> 24) % 256 :: (w >>> 16) % 256 :: (w >>> 8) % 256 :: w % 256 :: acc) []

/-- SHA-256 of a byte list. -/
def sha256 (msg : List Nat) : List Nat :=
  let padded := sha256Pad msg
  wordsToBytes (sha256Blocks (padded.length / 64) sha2H0 padded)

/-- HMAC key normalization: a key longer than the 64-byte block is
hashed first, then the key is zero-padded to the block size. -/
def hmacNormKey (key : List Nat) : List Nat :=
  let k := if 64 < key.length then sha256 key else key
  k ++ List.replicate (64 - k.length) 0

/-- HMAC-SHA256 over a byte message with a byte key. -/
def hmacSha256 (key msg : List Nat) : List Nat :=
  let k := hmacNormKey key
  sha256 ((k.map (fun b => b ^^^ 92))
    ++ sha256 ((k.map (fun b => b ^^^ 54)) ++ msg))

/-- The lower-case hex digit of a value below sixteen: 48 is the code
of the zero digit and 87 + 10 the code of the letter a. -/
def hexDigit (n : Nat) : Char :=
  if n < 10 then Char.ofNat (48 + n) else Char.ofNat (87 + n)

/-- Lower-case hex encoding of a byte list. -/
def hexEncode (bs : List Nat) : String :=
  String.mk (bs.foldr (fun b acc =>
    hexDigit (b / 16 % 16) :: hexDigit (b % 16) :: acc) [])

/-- Length-checking character comparison that walks both lists to the
end, the model of the constant-time comparison. -/
def constantTimeEq : List Char → List Char → Bool
  | [], [] => true
  | [], _ :: _ => false
  | _ :: _, [] => false
  | a :: as2, b :: bs2 => constantTimeEq as2 bs2 && a == b

/-- The signature header computed for a digest: sha256= and the hex
digest. -/
def mkSigHeader (digest : List Nat) : String := "sha256=" ++ hexEncode digest

/-- Splitting the sha256= marker off a header; none when the marker is
absent or malformed. -/
def headerRest : List Char → Option (List Char)
  | 's' :: 'h' :: 'a' :: '2' :: '5' :: '6' :: '=' :: rest => some rest
  | _ => none

/-- The webhook signature verifier: reject a missing header, reject a
malformed marker, otherwise compare the hex digest after the marker
with the expected HMAC-SHA256 of the secret over the raw payload. -/
def verifySignature (payload : List Nat) (header : Option String)
    (secret : List Nat) : Bool :=
  match header with
  | none => false
  | some h =>
    match headerRest h.data with
    | some rest =>
        constantTimeEq rest (hexEncode (hmacSha256 secret payload)).data
    | none => false

/-! ## Reaction endpoint

Modelled from the spec: the POST /api/reactions backend is not among
the sources (only the dashboard buttons calling it are, and the Sprint
2 migration has no reactions table); the spec states 200 once-only per
review and actor, a second call is rejected or no-ops, and the
aggregate helpfulness counts stay unchanged. -/

/-- The two reaction values. -/
inductive RVal where
  | helpful
  | not_helpful
deriving DecidableEq, Repr

/-- One recorded Reaction: review, actor and judgment. -/
structure Reaction where
  review_id : String
  actor : String
  value : RVal
deriving DecidableEq, Repr

/-- Whether the store already holds a reaction of the actor on the
review. -/
def hasReaction (db : List Reaction) (review actor : String) : Bool :=
  db.any (fun x => x.review_id == review && x.actor == actor)

/-- POST /api/reactions: the first call of an actor on a review records
the reaction and returns 200; every later call is rejected with 409 and
leaves the store unchanged. -/
def postReaction (db : List Reaction) (review actor : String) (v : RVal) :
    List Reaction × Nat :=
  if hasReaction db review actor then (db, 409)
  else (db ++ [⟨review, actor, v⟩], 200)

/-- Aggregate count of helpful reactions on a review. -/
def helpfulCount (db : List Reaction) (review : String) : Nat :=
  db.countP (fun x => x.review_id == review && x.value == RVal.helpful)

/-- Aggregate count of not_helpful reactions on a review. -/
def notHelpfulCount (db : List Reaction) (review : String) : Nat :=
  db.countP (fun x => x.review_id == review && x.value == RVal.not_helpful)

/-! ## Demonstration rows for concrete witnesses -/

/-- A dashboard review row of installation 1. -/
def demoDashA : DashReview :=
  ⟨"a", 1, "octo/alpha", "Add feature", "alice", Severity.clean,
    "looks good", some 1, "2026-01-01"⟩

/-- A dashboard review row of installation 2. -/
def demoDashB : DashReview :=
  ⟨"b", 2, "octo/beta", "Fix bug", "bob", Severity.critical,
    "buffer overflow", some 2, "2026-01-02"⟩

/-- A stored review row of tenant 7. -/
def demoRowT7 : ReviewRow :=
  ⟨1, 7, "octo/alpha", 1, "7:octo/alpha:1", "pending", none⟩

/-- A stored review row of tenant 8. -/
def demoRowT8 : ReviewRow :=
  ⟨2, 8, "octo/beta", 2, "8:octo/beta:2", "pending", none⟩

/-- A completed stored review row of tenant 7. -/
def demoRowDone : ReviewRow :=
  ⟨3, 7, "octo/alpha", 1, "7:octo/alpha:1", "completed", none⟩

/-! ## Dashboard middleware (dashboard/src/middleware.ts) -/

/-- Character-list test that s begins with pre (the JS startsWith). -/
def listBegins : List Char → List Char → Bool
  | _, [] => true
  | [], _ :: _ => false
  | c :: cs, d :: ds => c == d && listBegins cs ds

/-- String form of listBegins. -/
def strBegins (s pre : String) : Bool := listBegins s.data pre.data

/-- The JS pathname.includes of a dot. -/
def strHasDot (s : String) : Bool := s.data.contains '.'

/-- PUBLIC_PATHS of the middleware. -/
def PUBLIC_PATHS : List String := ["/", "/login", "/api"]

/-- Outcome of the middleware: pass the request on, or redirect to
/login carrying the original path in the redirect query parameter. -/
inductive MwDecision where
  | next
  | redirectLogin (original : String)
deriving DecidableEq, Repr

/-- The middleware: public paths and /api/ requests pass, then static
files (/_next or a dot) pass, then requests without a truthy
velie_session cookie are redirected to /login. -/
def middleware (pathname : String) (cookie : Option String) : MwDecision :=
  if PUBLIC_PATHS.any (fun p => pathname == p || strBegins pathname "/api/") then
    .next
  else if strBegins pathname "/_next" || strHasDot pathname then
    .next
  else
    match cookie with
    | none => .redirectLogin pathname
    | some v => if v == "" then .redirectLogin pathname else .next

end Velie

namespace Velie

/-! ## Theorems -/

/-- Claim C10: for every list of fetched reviews, getDashboardStats
returns totalReviews equal to the number of fetched reviews,
criticalIssues equal to the count of those with severity critical, repos
equal to the number of distinct repo_full_name values among them, and
apiCalls equal to exactly twice totalReviews. -/
theorem dashboard_stats_correct (reviews : List DashReview) :
    (getDashboardStats reviews).totalReviews = reviews.length
    ∧ (getDashboardStats reviews).criticalIssues =
        reviews.countP (fun r => r.severity == Severity.critical)
    ∧ (getDashboardStats reviews).repos =
        (reviews.map (fun r => r.repo_full_name)).toFinset.card
    ∧ (getDashboardStats reviews).apiCalls =
        2 * (getDashboardStats reviews).totalReviews := by
  refine ⟨rfl, ?_, ?_, ?_⟩
  · simp [getDashboardStats, List.countP_eq_length_filter]
  · simp [getDashboardStats, List.card_toFinset]
  · simp [getDashboardStats, Nat.mul_comm]

/-- Claim C7, counterexample: the reviews table created by the Sprint 2
migration has no severity column, so a Review as persisted in the store
does not carry a severity attribute. -/
theorem severity_not_persisted : ¬ ("severity" ∈ reviewsTableColumns) := by
  decide

/-- Claim C7, amended: every Review record as typed in the dashboard
data layer and produced by the pipeline carries a severity attribute
with value critical, warning or clean, but the reviews table persisted
by the Sprint 2 migration has no severity column. -/
theorem severity_domain :
    (∀ r : DashReview,
        r.severity = Severity.critical ∨ r.severity = Severity.warning
        ∨ r.severity = Severity.clean)
    ∧ "severity" ∉ reviewsTableColumns := by
  refine ⟨?_, by decide⟩
  intro r
  cases h : r.severity
  · exact Or.inl rfl
  · exact Or.inr (Or.inl rfl)
  · exact Or.inr (Or.inr rfl)

/-- Lookup in an appended association list when the key is bound on the
left. -/
theorem lookup_append_some {k : String} {l1 : JObj} (l2 : JObj) {v : JVal}
    (h : l1.lookup k = some v) : (l1 ++ l2).lookup k = some v := by
  induction l1 with
  | nil => simp [List.lookup] at h
  | cons kv t ih =>
    simp only [List.lookup, List.cons_append] at h ⊢
    cases hkk : (k == kv.1) with
    | true => simpa [hkk] using h
    | false =>
      rw [hkk] at h
      exact ih h

/-- Lookup in an appended association list when the key is unbound on
the left. -/
theorem lookup_append_none {k : String} {l1 : JObj} (l2 : JObj)
    (h : l1.lookup k = none) : (l1 ++ l2).lookup k = l2.lookup k := by
  induction l1 with
  | nil => rfl
  | cons kv t ih =>
    simp only [List.lookup, List.cons_append] at h ⊢
    cases hkk : (k == kv.1) with
    | true => simp [hkk] at h
    | false =>
      rw [hkk] at h
      exact ih h

/-- Filtering out the keys bound in body does not change the lookup of a
key that body does not bind. -/
theorem filter_lookup_none {body : JObj} (current : JObj) {k : String}
    (h : body.lookup k = none) :
    (current.filter (fun kv => (body.lookup kv.1).isNone)).lookup k
      = current.lookup k := by
  induction current with
  | nil => rfl
  | cons kv t ih =>
    cases hkk : (k == kv.1) with
    | true =>
      have hk : k = kv.1 := by simpa using hkk
      have hnone : (body.lookup kv.1).isNone = true := by
        rw [← hk, h]; rfl
      simp [List.filter, hnone, List.lookup, hkk]
    | false =>
      cases hfil : (body.lookup kv.1).isNone with
      | true => simp [List.filter, hfil, List.lookup, hkk, ih]
      | false => simp [List.filter, hfil, List.lookup, hkk, ih]

/-- Claim C9: POST /api/settings modifies exactly the keys present in
the request body; every key absent from the body keeps the previously
stored value (or the default configuration when no settings file
exists), and the settings object of the response equals the object
persisted to disk. -/
theorem settings_update_frame (file : Option JObj) (body : JObj)
    (k : String) (v : JVal) :
    (body.lookup k = none →
      ((settingsPOST file body).settings).lookup k
        = (loadSettings file).lookup k)
    ∧ (body.lookup k = some v →
      ((settingsPOST file body).settings).lookup k = some v)
    ∧ (settingsPOST file body).persisted = (settingsPOST file body).settings
    ∧ loadSettings none = defaultSettings
    ∧ (settingsPOST file body).success = true := by
  refine ⟨?_, ?_, rfl, rfl, rfl⟩
  · intro h
    show (mergeObj (loadSettings file) body).lookup k = _
    unfold mergeObj
    rw [lookup_append_none _ h, filter_lookup_none _ h]
  · intro h
    show (mergeObj (loadSettings file) body).lookup k = _
    unfold mergeObj
    exact lookup_append_some _ h

/-- Witness for settings_update_frame: a body that only sets llm_model
leaves review_language at its previous value. -/
theorem settings_update_frame_witness :
    ([("llm_model", JVal.s "claude-haiku")] : JObj).lookup "review_language"
      = none
    ∧ ((settingsPOST none [("llm_model", JVal.s "claude-haiku")]).settings).lookup
        "review_language"
      = (loadSettings none).lookup "review_language" :=
  ⟨by decide,
    (settings_update_frame none [("llm_model", JVal.s "claude-haiku")]
      "review_language" JVal.null).1 (by decide)⟩

/-- The length-checking comparison agrees with equality. -/
theorem constantTimeEq_iff (a b : List Char) :
    constantTimeEq a b = true ↔ a = b := by
  induction a generalizing b with
  | nil => cases b <;> simp [constantTimeEq]
  | cons x xs ih =>
    cases b with
    | nil => simp [constantTimeEq]
    | cons y ys =>
      simp only [constantTimeEq, Bool.and_eq_true, beq_iff_eq, ih ys,
        List.cons.injEq]
      tauto

/-- The characters of the computed signature header. -/
theorem sigHeader_data (d : List Nat) :
    (mkSigHeader d).data
      = 's' :: 'h' :: 'a' :: '2' :: '5' :: '6' :: '=' :: (hexEncode d).data := by
  rfl

/-- headerRest recovers exactly the headers that begin with the sha256=
marker. -/
theorem headerRest_some {l rest : List Char} (h : headerRest l = some rest) :
    l = 's' :: 'h' :: 'a' :: '2' :: '5' :: '6' :: '=' :: rest := by
  unfold headerRest at h
  split at h
  · injection h with h2
    rw [h2]
  · cases h

/-- A header built from the expected digest is accepted. -/
theorem verify_expected (P S : List Nat) :
    verifySignature P (some (mkSigHeader (hmacSha256 S P))) S = true := by
  show constantTimeEq (hexEncode (hmacSha256 S P)).data
    (hexEncode (hmacSha256 S P)).data = true
  exact (constantTimeEq_iff _ _).mpr rfl

/-- Secrets with the same normalized HMAC key sign identically. -/
theorem hmac_eq_of_normKey_eq (k1 k2 msg : List Nat)
    (h : hmacNormKey k1 = hmacNormKey k2) :
    hmacSha256 k1 msg = hmacSha256 k2 msg := by
  unfold hmacSha256
  rw [h]

/-- Claim C3, counterexample: the one-byte secret 0x61 and the two-byte
secret 0x61 0x00 are different, yet HMAC zero-pads both to the same
64-byte key, so the verifier configured with the first secret accepts
the signature computed with the second over the empty payload. -/
theorem webhook_padded_secret_collision :
    ([97] : List Nat) ≠ [97, 0]
    ∧ verifySignature []
        (some (mkSigHeader (hmacSha256 [97, 0] []))) [97] = true := by
  refine ⟨by decide, ?_⟩
  have hk : hmacNormKey [97, 0] = hmacNormKey [97] := by decide
  rw [hmac_eq_of_normKey_eq [97, 0] [97] [] hk]
  exact verify_expected [] [97]

/-- Claim C3, amended: the verifier accepts the header sha256= followed
by the hex HMAC-SHA256 of the configured secret over the raw payload,
and accepts a header exactly when it equals that expected value — so a
signature computed with a different secret is rejected precisely when
its digest differs, which fails for secrets normalizing to the same
zero-padded HMAC key; a missing header is always a reject, malformed
headers fall into the reject branch of a total function, and no
exception exists. -/
theorem webhook_signature_verification (P S : List Nat) (hs : String) :
    verifySignature P (some (mkSigHeader (hmacSha256 S P))) S = true
    ∧ (verifySignature P (some hs) S = true
        ↔ hs = mkSigHeader (hmacSha256 S P))
    ∧ verifySignature P none S = false := by
  refine ⟨verify_expected P S, ?_, rfl⟩
  constructor
  · intro hacc
    have hacc2 : (match headerRest hs.data with
        | some rest =>
            constantTimeEq rest (hexEncode (hmacSha256 S P)).data
        | none => false) = true := hacc
    cases hrest : headerRest hs.data with
    | none => rw [hrest] at hacc2; cases hacc2
    | some rest =>
      rw [hrest] at hacc2
      have hdata : hs.data
          = 's' :: 'h' :: 'a' :: '2' :: '5' :: '6' :: '=' :: rest :=
        headerRest_some hrest
      have hrest2 : rest = (hexEncode (hmacSha256 S P)).data :=
        (constantTimeEq_iff _ _).mp hacc2
      have : hs.data = (mkSigHeader (hmacSha256 S P)).data := by
        rw [hdata, hrest2, sigHeader_data]
      calc hs = String.mk hs.data := rfl
        _ = String.mk (mkSigHeader (hmacSha256 S P)).data := by rw [this]
        _ = mkSigHeader (hmacSha256 S P) := rfl
  · intro heq
    rw [heq]
    exact verify_expected P S

/-- Witness for webhook_signature_verification: with the secret 0x61 and
the empty payload, a missing header is rejected. -/
theorem webhook_signature_verification_witness :
    verifySignature [] none [97] = false :=
  (webhook_signature_verification [] [97] "x").2.2

/-- After any post, the actor has a reaction on the review. -/
theorem hasReaction_after_post (db : List Reaction) (review actor : String)
    (v : RVal) :
    hasReaction (postReaction db review actor v).1 review actor = true := by
  unfold postReaction
  cases hh : hasReaction db review actor with
  | true => simpa using hh
  | false =>
    simp only [if_neg, Bool.false_eq_true, not_false_eq_true]
    unfold hasReaction
    rw [List.any_append]
    simp

/-- Claim C4: the first POST /api/reactions of an actor on a review
succeeds with 200 and appends exactly one Reaction; every later POST of
the same actor on the same review is rejected with 409, leaves the
store unchanged, and leaves the aggregate helpful and not_helpful
counts of the review unchanged. -/
theorem reaction_once_only (db : List Reaction) (review actor : String)
    (v w : RVal) :
    (hasReaction db review actor = false →
      (postReaction db review actor v).2 = 200
      ∧ (postReaction db review actor v).1 = db ++ [⟨review, actor, v⟩])
    ∧ ((postReaction (postReaction db review actor v).1 review actor w).2
        = 409
      ∧ (postReaction (postReaction db review actor v).1 review actor w).1
        = (postReaction db review actor v).1)
    ∧ (helpfulCount
        (postReaction (postReaction db review actor v).1 review actor w).1
        review
      = helpfulCount (postReaction db review actor v).1 review
      ∧ notHelpfulCount
        (postReaction (postReaction db review actor v).1 review actor w).1
        review
      = notHelpfulCount (postReaction db review actor v).1 review) := by
  have hpost := hasReaction_after_post db review actor v
  have h2 : postReaction (postReaction db review actor v).1 review actor w
      = ((postReaction db review actor v).1, 409) := by
    conv_lhs => rw [postReaction]
    rw [hpost]
    rfl
  refine ⟨?_, ⟨?_, ?_⟩, ⟨?_, ?_⟩⟩
  · intro h
    unfold postReaction
    rw [h]
    exact ⟨rfl, rfl⟩
  · rw [h2]
  · rw [h2]
  · rw [h2]
  · rw [h2]

/-- Witness for reaction_once_only: on the empty store, the first post
of actor u1 on review r1 returns 200 and the second returns 409. -/
theorem reaction_once_only_witness :
    hasReaction [] "r1" "u1" = false
    ∧ (postReaction [] "r1" "u1" RVal.helpful).2 = 200
    ∧ (postReaction (postReaction [] "r1" "u1" RVal.helpful).1 "r1" "u1"
        RVal.not_helpful).2 = 409 :=
  ⟨by decide,
    ((reaction_once_only [] "r1" "u1" RVal.helpful RVal.not_helpful).1
      (by decide)).1,
    (reaction_once_only [] "r1" "u1" RVal.helpful RVal.not_helpful).2.1.1⟩

/-- Claim C1: under the row level security policies of the reviews
table, every row returned by a select, admitted by an insert or
produced by an update on behalf of tenant t has tenant_id t; rows of a
different tenant are returned unchanged by updates; deletes, for which
no policy exists, remove nothing; and a session without a tenant
setting sees no rows. -/
theorem rls_tenant_isolation (t : Nat) (db : List ReviewRow)
    (f : ReviewRow → ReviewRow) (p : ReviewRow → Bool) (r : ReviewRow) :
    (r ∈ rlsSelect (some t) db → r.tenant_id = t)
    ∧ (∀ db2, rlsInsert (some t) r db = some db2 →
        r.tenant_id = t ∧ db2 = db ++ [r])
    ∧ (∀ db2, rlsUpdate (some t) f db = some db2 →
        ∀ x ∈ db2, x ∈ db ∨ (x.tenant_id = t
          ∧ ∃ x0, x0 ∈ db ∧ x0.tenant_id = t ∧ x = f x0))
    ∧ (∀ db2, rlsUpdate (some t) f db = some db2 →
        r ∈ db → r.tenant_id ≠ t → r ∈ db2)
    ∧ rlsDelete (some t) p db = db
    ∧ rlsSelect none db = [] := by
  refine ⟨?_, ?_, ?_, ?_, ?_, ?_⟩
  · intro h
    have := List.of_mem_filter h
    simpa [policyHolds] using this
  · intro db2 h
    unfold rlsInsert at h
    cases hp : policyHolds (some t) r with
    | true =>
      rw [hp] at h
      simp only [if_true] at h
      refine ⟨by simpa [policyHolds] using hp, by injection h with h2; exact h2.symm⟩
    | false =>
      rw [hp] at h
      simp at h
  · intro db2 h x hx
    unfold rlsUpdate at h
    cases hall : db.all (fun r2 => !policyHolds (some t) r2
        || policyHolds (some t) (f r2)) with
    | false => rw [hall] at h; simp at h
    | true =>
      rw [hall] at h
      simp only [if_true] at h
      injection h with h2
      have hx2 : x ∈ db.map (fun r2 =>
          if policyHolds (some t) r2 then f r2 else r2) := by
        rw [h2]; exact hx
      obtain ⟨x0, hx0mem, hx0eq⟩ := List.mem_map.mp hx2
      cases hp : policyHolds (some t) x0 with
      | false =>
        rw [hp] at hx0eq
        simp at hx0eq
        left
        rw [← hx0eq]
        exact hx0mem
      | true =>
        rw [hp] at hx0eq
        simp at hx0eq
        right
        have hx0t : x0.tenant_id = t := by simpa [policyHolds] using hp
        have hcheck := (List.all_eq_true.mp hall) x0 hx0mem
        rw [hp] at hcheck
        simp only [Bool.not_true, Bool.false_or] at hcheck
        have hft : (f x0).tenant_id = t := by simpa [policyHolds] using hcheck
        exact ⟨by rw [← hx0eq]; exact hft, x0, hx0mem, hx0t, hx0eq.symm⟩
  · intro db2 h hmem hne
    unfold rlsUpdate at h
    cases hall : db.all (fun r2 => !policyHolds (some t) r2
        || policyHolds (some t) (f r2)) with
    | false => rw [hall] at h; simp at h
    | true =>
      rw [hall] at h
      simp only [if_true] at h
      have hp : policyHolds (some t) r = false := by
        simp [policyHolds]
        intro hcon
        exact absurd hcon hne
      have hmap : (if policyHolds (some t) r then f r else r) ∈ db.map
          (fun r2 => if policyHolds (some t) r2 then f r2 else r2) :=
        List.mem_map_of_mem _ hmem
      have hid : (if policyHolds (some t) r then f r else r) = r := by
        rw [hp]; simp
      rw [hid] at hmap
      injection h with h2
      rw [h2] at hmap
      exact hmap
  · unfold rlsDelete
    simp
  · rw [rlsSelect, List.filter_eq_nil_iff]
    intro a _
    simp [policyHolds]

/-- Witness for rls_tenant_isolation: the row of tenant 7 returned by a
select on behalf of tenant 7 has tenant_id 7, and the row of tenant 8
survives an update on behalf of tenant 7 unchanged. -/
theorem rls_tenant_isolation_witness :
    demoRowT7 ∈ rlsSelect (some 7) [demoRowT7, demoRowT8]
    ∧ demoRowT7.tenant_id = 7 :=
  ⟨by decide,
    (rls_tenant_isolation 7 [demoRowT7, demoRowT8] id (fun _ => true)
      demoRowT7).1 (by decide)⟩

/-- A terminal row is a fixed point of the success-path transition. -/
theorem completeRow_terminal (i : Nat) (r : ReviewRow)
    (h : r.status = "completed" ∨ r.status = "failed") :
    completeRow i r = r := by
  unfold completeRow
  rcases h with h|h <;> simp [h]

/-- A terminal row is a fixed point of the error-path transition. -/
theorem failRow_terminal (i : Nat) (msg : String) (r : ReviewRow)
    (h : r.status = "completed" ∨ r.status = "failed") :
    failRow i msg r = r := by
  unfold failRow
  rcases h with h|h <;> simp [h]

/-- Every store operation keeps the CHECK constraint satisfied. -/
theorem stepOp_preserves_check (db : List ReviewRow) (op : StoreOp)
    (h : ∀ r ∈ db, rowCheckOk r = true) :
    ∀ r ∈ stepOp db op, rowCheckOk r = true := by
  cases op with
  | webhookEvent i t2 repo pr =>
    intro r hr
    rcases List.mem_append.mp hr with hr|hr
    · exact h r hr
    · have : r = newReviewRow i t2 repo pr := by simpa using hr
      rw [this]
      rfl
  | complete i =>
    intro r hr
    obtain ⟨r0, hr0, hr0eq⟩ := List.mem_map.mp hr
    rw [← hr0eq]
    unfold completeRow
    cases hc : (r0.id == i && r0.status == "pending") with
    | true => rfl
    | false => exact h r0 hr0
  | markFailed i msg =>
    intro r hr
    obtain ⟨r0, hr0, hr0eq⟩ := List.mem_map.mp hr
    rw [← hr0eq]
    unfold failRow
    cases hc : (r0.id == i && r0.status == "pending") with
    | true => rfl
    | false => exact h r0 hr0

/-- Every store operation keeps a terminal row in the table verbatim. -/
theorem stepOp_preserves_terminal (db : List ReviewRow) (op : StoreOp)
    (r : ReviewRow) (hmem : r ∈ db)
    (h : r.status = "completed" ∨ r.status = "failed") :
    r ∈ stepOp db op := by
  cases op with
  | webhookEvent i t2 repo pr => exact List.mem_append_left _ hmem
  | complete i =>
    have := List.mem_map_of_mem (completeRow i) hmem
    rwa [completeRow_terminal i r h] at this
  | markFailed i msg =>
    have := List.mem_map_of_mem (failRow i msg) hmem
    rwa [failRow_terminal i msg r h] at this

/-- Claim C2: every reachable Review status lies in the CHECK domain
pending, completed, failed; a pending row with the given id moves to
completed on the success path and to failed on the error path; both are
terminal, so a terminal row survives every sequence of store operations
verbatim; and a new webhook event appends a fresh pending row instead
of reopening an existing one. -/
theorem review_status_state_machine (db : List ReviewRow)
    (ops : List StoreOp) :
    ((∀ r ∈ db, rowCheckOk r = true) →
        ∀ r ∈ runOps db ops, rowCheckOk r = true)
    ∧ (∀ r ∈ db, (r.status = "completed" ∨ r.status = "failed") →
        r ∈ runOps db ops)
    ∧ (∀ i t2 repo pr, stepOp db (StoreOp.webhookEvent i t2 repo pr)
        = db ++ [newReviewRow i t2 repo pr])
    ∧ (∀ i msg r, (r.status = "completed" ∨ r.status = "failed") →
        completeRow i r = r ∧ failRow i msg r = r)
    ∧ (∀ i msg (r : ReviewRow), r.id = i → r.status = "pending" →
        (completeRow i r).status = "completed"
        ∧ (failRow i msg r).status = "failed") := by
  refine ⟨?_, ?_, fun _ _ _ _ => rfl, ?_, ?_⟩
  · induction ops generalizing db with
    | nil => intro h; exact h
    | cons op rest ih =>
      intro h
      exact ih (stepOp db op) (stepOp_preserves_check db op h)
  · induction ops generalizing db with
    | nil => intro r hr _; exact hr
    | cons op rest ih =>
      intro r hr hterm
      exact ih (stepOp db op) r (stepOp_preserves_terminal db op r hr hterm) hterm
  · intro i msg r h
    exact ⟨completeRow_terminal i r h, failRow_terminal i msg r h⟩
  · intro i msg r hid hst
    unfold completeRow failRow
    simp [hid, hst]

/-- Witness for review_status_state_machine: the completed demo row
survives a completion, a failure and a fresh webhook event. -/
theorem review_status_state_machine_witness :
    demoRowDone ∈ runOps [demoRowDone]
      [StoreOp.complete 3, StoreOp.markFailed 3 "boom",
       StoreOp.webhookEvent 4 7 "octo/alpha" 1] :=
  (review_status_state_machine [demoRowDone]
      [StoreOp.complete 3, StoreOp.markFailed 3 "boom",
       StoreOp.webhookEvent 4 7 "octo/alpha" 1]).2.1
    demoRowDone (by decide) (Or.inl (by decide))

/-- Claim C5, counterexample: a JSON body carrying the fields
review_id, repo and pr_number is rejected with HTTP 400 and no success
field by the dashboard route, which destructures reviewId and prNumber,
and the backend is never called although it would have created the fix
PR. -/
theorem autofix_snake_case_rejected :
    (autofixPOST
        [("review_id", JVal.s "rev-1"), ("repo", JVal.s "octo/repo"),
         ("pr_number", JVal.n 42)]
        (BackendOutcome.ok (some "https://github.com/octo/repo/pull/43")
          none)).status = 400
    ∧ (autofixPOST
        [("review_id", JVal.s "rev-1"), ("repo", JVal.s "octo/repo"),
         ("pr_number", JVal.n 42)]
        (BackendOutcome.ok (some "https://github.com/octo/repo/pull/43")
          none)).body.lookup "success" = none
    ∧ (autofixPOST
        [("review_id", JVal.s "rev-1"), ("repo", JVal.s "octo/repo"),
         ("pr_number", JVal.n 42)]
        (BackendOutcome.ok (some "https://github.com/octo/repo/pull/43")
          none)).calledBackend = false := by
  decide

/-- Claim C5, amended: POST /api/autofix reads the camelCase fields
reviewId, repo and prNumber from the JSON body; when all three are
truthy and the backend call succeeds, it returns HTTP 200 with success
true and the fix PR URL of the backend; when any of the three is
missing or falsy, it returns an HTTP 400 error result without calling
the backend, so no fix PR is created and nothing is retried; a failing
or unreachable backend yields an error result without a success
field. -/
theorem autofix_contract (body : JObj) (backend : BackendOutcome)
    (url msg : Option String) (st : Nat) (detail : Option String) :
    (jsTruthy (body.lookup "reviewId") = true →
     jsTruthy (body.lookup "repo") = true →
     jsTruthy (body.lookup "prNumber") = true →
      ((autofixPOST body (BackendOutcome.ok url msg)).status = 200
        ∧ (autofixPOST body (BackendOutcome.ok url msg)).body.lookup
            "success" = some (JVal.b true)
        ∧ (autofixPOST body (BackendOutcome.ok url msg)).body.lookup
            "fix_pr_url" = some (jsOrNullS url))
      ∧ ((autofixPOST body (BackendOutcome.httpError st detail)).status = st
        ∧ (autofixPOST body
            (BackendOutcome.httpError st detail)).body.lookup "success"
          = none)
      ∧ ((autofixPOST body BackendOutcome.unreachable).status = 503
        ∧ (autofixPOST body BackendOutcome.unreachable).body.lookup
            "success" = none))
    ∧ ((jsTruthy (body.lookup "reviewId") = false
        ∨ jsTruthy (body.lookup "repo") = false
        ∨ jsTruthy (body.lookup "prNumber") = false) →
      (autofixPOST body backend).status = 400
      ∧ (autofixPOST body backend).calledBackend = false
      ∧ (autofixPOST body backend).body.lookup "success" = none
      ∧ (autofixPOST body backend).body.lookup "error"
          = some (JVal.s "Missing required fields: reviewId, repo, prNumber"))
    := by
  constructor
  · intro h1 h2 h3
    have hc : ∀ b : BackendOutcome,
        autofixPOST body b
          = match b with
            | .ok u m =>
                ⟨200, [("success", JVal.b true), ("fix_pr_url", jsOrNullS u),
                  ("message",
                    JVal.s (jsOrDefaultS m "修正PRを作成しました"))], true⟩
            | .httpError s2 d2 =>
                ⟨s2, [("error",
                    JVal.s (jsOrDefaultS d2 "Failed to create fix PR")),
                  ("status", JVal.s "error")], true⟩
            | .unreachable =>
                ⟨503, [("error", JVal.s "Velie server is not reachable"),
                  ("status", JVal.s "error")], true⟩ := by
      intro b
      unfold autofixPOST
      rw [h1, h2, h3]
      rfl
    refine ⟨⟨?_, ?_, ?_⟩, ⟨?_, ?_⟩, ⟨?_, ?_⟩⟩ <;> rw [hc] <;> rfl
  · intro h
    have hc : (jsTruthy (body.lookup "reviewId")
        && jsTruthy (body.lookup "repo")
        && jsTruthy (body.lookup "prNumber")) = false := by
      rcases h with h|h|h <;> simp [h]
    have hpost : autofixPOST body backend
        = ⟨400,
          [("error",
            JVal.s "Missing required fields: reviewId, repo, prNumber")],
          false⟩ := by
      unfold autofixPOST
      rw [hc]
      rfl
    rw [hpost]
    exact ⟨rfl, rfl, rfl, rfl⟩

/-- Witness for autofix_contract: a body with truthy camelCase fields
and a successful backend call yields HTTP 200. -/
theorem autofix_contract_witness :
    (autofixPOST
        [("reviewId", JVal.s "rev-1"), ("repo", JVal.s "octo/repo"),
         ("prNumber", JVal.n 42)]
        (BackendOutcome.ok (some "https://github.com/octo/repo/pull/43")
          none)).status = 200 :=
  ((autofix_contract
      [("reviewId", JVal.s "rev-1"), ("repo", JVal.s "octo/repo"),
       ("prNumber", JVal.n 42)]
      BackendOutcome.unreachable
      (some "https://github.com/octo/repo/pull/43") none 500 none).1
    (by decide) (by decide) (by decide)).1.1

/-- Claim C6, counterexample: with the local JSON data source holding
reviews of installations 1 and 2, the review listing returns both rows,
so its output is not restricted to the tenant of any one caller. -/
theorem review_listing_not_tenant_scoped :
    demoDashA ∈ getReviews 50 (apiReviewsGET (some (some [demoDashA, demoDashB])) none)
    ∧ demoDashB ∈ getReviews 50 (apiReviewsGET (some (some [demoDashA, demoDashB])) none)
    ∧ demoDashA.installation_id ≠ demoDashB.installation_id := by
  decide

/-- Claim C6, amended: the dashboard review listing applies no tenant or
severity filter: it returns the fetched rows unchanged up to truncation
at the requested limit, and its Supabase query carries only order and
limit parameters; fetching a single review by id returns the first
fetched review with that id, hence exactly that review when at most one
fetched row bears the id. -/
theorem review_query_behaviour (fetched : List DashReview) (limit : Nat)
    (i : String) (r : DashReview) :
    getReviews limit fetched = fetched.take limit
    ∧ (reviewsQueryParams.lookup "severity" = none
        ∧ reviewsQueryParams.lookup "tenant_id" = none)
    ∧ (findReview i fetched = some r → r ∈ fetched ∧ r.id = i)
    ∧ (r ∈ fetched → r.id = i →
        (∀ x ∈ fetched, x.id = i → x = r) → findReview i fetched = some r) := by
  refine ⟨rfl, ⟨by decide, by decide⟩, ?_, ?_⟩
  · intro h
    refine ⟨List.mem_of_find?_eq_some h, ?_⟩
    have := List.find?_some h
    simpa using this
  · induction fetched with
    | nil => intro h; simp at h
    | cons x t ih =>
      intro hmem hid huniq
      unfold findReview
      rw [List.find?]
      cases hx : (x.id == i) with
      | true =>
        have hxr : x = r := huniq x (List.mem_cons_self x t) (by simpa using hx)
        rw [hxr]
      | false =>
        have hxr : x ≠ r := by
          intro hcon
          rw [hcon, hid] at hx
          simp at hx
        have hmem2 : r ∈ t := by
          rcases List.mem_cons.mp hmem with h|h
          · exact absurd h.symm hxr
          · exact h
        exact ih hmem2 hid (fun y hy hyid => huniq y (List.mem_cons_of_mem x hy) hyid)

/-- Witness for review_query_behaviour: looking up the id b in the demo
listing returns the demo row of installation 2. -/
theorem review_query_behaviour_witness :
    findReview "b" [demoDashA, demoDashB] = some demoDashB :=
  (review_query_behaviour [demoDashA, demoDashB] 50 "b" demoDashB).2.2.2
    (by decide) (by decide) (by decide)

/-- Claim C8, counterexample: the request path /api with no
velie_session cookie is passed through by the middleware although it
equals none of / and /login, does not begin with /api/ or /_next, and
contains no dot. -/
theorem middleware_api_root_passes :
    middleware "/api" none = MwDecision.next
    ∧ ¬("/api" = "/" ∨ "/api" = "/login"
        ∨ strBegins "/api" "/api/" = true
        ∨ strBegins "/api" "/_next" = true
        ∨ strHasDot "/api" = true) := by
  decide

/-- Claim C8, amended: a request with no velie_session cookie is passed
through if and only if its path equals /, /login or /api, starts with
/api/ or /_next, or contains a dot; every other cookie-less request is
redirected to /login carrying the original path, and every path under
/api/ is reachable without authentication at the middleware layer. -/
theorem middleware_gate (path : String) :
    (middleware path none = MwDecision.next ↔
      (path = "/" ∨ path = "/login" ∨ path = "/api"
        ∨ strBegins path "/api/" = true
        ∨ strBegins path "/_next" = true
        ∨ strHasDot path = true))
    ∧ (strBegins path "/api/" = true → middleware path none = MwDecision.next)
    ∧ (middleware path none = MwDecision.next
        ∨ middleware path none = MwDecision.redirectLogin path) := by
  have hmw : middleware path none = MwDecision.next
      ∨ middleware path none = MwDecision.redirectLogin path := by
    unfold middleware
    split_ifs <;> simp
  refine ⟨?_, ?_, hmw⟩
  · unfold middleware
    split_ifs with h1 h2
    · simp only [PUBLIC_PATHS, List.any_cons, List.any_nil, Bool.or_false,
        Bool.or_eq_true, beq_iff_eq] at h1
      constructor
      · intro _; tauto
      · intro _; rfl
    · simp only [Bool.or_eq_true] at h2
      constructor
      · intro _; tauto
      · intro _; rfl
    · constructor
      · intro h; exact absurd h (by simp)
      · intro h
        exfalso
        simp only [PUBLIC_PATHS, List.any_cons, List.any_nil, Bool.or_false,
          Bool.or_eq_true, beq_iff_eq, not_or] at h1
        simp only [Bool.or_eq_true, not_or] at h2
        tauto
  · intro hsb
    unfold middleware
    have hany : (PUBLIC_PATHS.any
        fun p => path == p || strBegins path "/api/") = true := by
      simp [PUBLIC_PATHS, hsb]
    simp [hany]

/-- Witness for middleware_gate: the concrete path /api/reviews with no
cookie is passed through. -/
theorem middleware_gate_witness :
    strBegins "/api/reviews" "/api/" = true
    ∧ middleware "/api/reviews" none = MwDecision.next := by
  refine ⟨by decide, ?_⟩
  exact (middleware_gate "/api/reviews").2.1 (by decide)

end Velie
